import Mathlib

/-!
Shallow embedding of the query/aggregation core of the `bibliotheca`
library-catalog service (Rust sources: `book.rs`, `user.rs`, `comment.rs`,
`genre.rs`, `lib.rs`, `mongo.rs`).

Modelling conventions:
* The MongoDB collections become association lists `List (String × α)`
  keyed by the 24-hex-character rendering of the ObjectId of the document
  (`_id` is unique in MongoDB, so at most one entry per key is live).
* `i32` fields are modelled as `Int` (no arithmetic overflowing 32 bits
  occurs in the code under study), `f64` thresholds and `$avg` results as
  `Rat` (the averages compared in the claims are exact).
* Fallible Rust paths (`Result`) return `Outcome`; a `.unwrap()` on an
  `Err`/`None` in the source is modelled by the distinguished outcome
  `Outcome.panicked`, which is not an error return.
* State-changing repository calls return the post-state `Db` paired with
  the `Outcome`, so "writes nothing" is expressible as the post-state
  being the input state.
-/

namespace Bibliotheca

/-- BSON scalar values as far as the embedded queries need them.  MongoDB
equality between values of different BSON types (e.g. a string vs an
int32) never holds, which plain constructor disequality captures. -/
inductive BVal where
  | s : String → BVal
  | i : Int → BVal
  | b : Bool → BVal
deriving DecidableEq

/-- `Book` struct from `book.rs` (serde serializes exactly these fields). -/
structure Book where
  title : String
  author : String
  year : Int
  resume : String
  availability : Bool
  gender_id : String
deriving DecidableEq

/-- `User` struct from `user.rs`. -/
structure User where
  first_name : String
  last_name : String
  email : String
  birth_date : String
  borrowed_books : List String
  role : String
deriving DecidableEq

/-- `Comment` struct from `comment.rs`. -/
structure Comment where
  user_id : String
  book_id : String
  comment : String
  rating : Int
deriving DecidableEq

/-- `Genre` struct from `genre.rs` (the stored document additionally has
its `_id`, carried as the association-list key in `Db.genres`). -/
structure Genre where
  name : String
deriving DecidableEq

/-- `SearchBook` input struct from `book.rs`. -/
structure SearchBook where
  title : Option String
  author : Option String
  year : Option Int
deriving DecidableEq

/-- `UpdateBook` input struct from `book.rs`. -/
structure UpdateBook where
  title : Option String
  author : Option String
  year : Option Int
  resume : Option String
  availability : Option Bool
  gender_id : Option String
deriving DecidableEq

/-- `SearchUser` input struct from `user.rs`. -/
structure SearchUser where
  first_name : Option String
  last_name : Option String
  email : Option String
deriving DecidableEq

/-- `UpdateUser` input struct from `user.rs`. -/
structure UpdateUser where
  first_name : Option String
  last_name : Option String
  email : Option String
  birth_date : Option String
  borrowed_books : Option (List String)
  role : Option String
deriving DecidableEq

/-- `Value` enum from `lib.rs` (tagged update values for books). -/
inductive Value where
  | Int : Int → Value
  | Bool : Bool → Value
  | Text : String → Value
deriving DecidableEq

/-- `OperatorRating` enum from `lib.rs`; the `f64` payload is modelled
as `Rat`. -/
inductive OperatorRating where
  | Equal : Rat → OperatorRating
  | NotEqual : Rat → OperatorRating
  | Greater : Rat → OperatorRating
  | GreaterOrEqual : Rat → OperatorRating
  | Less : Rat → OperatorRating
  | LessOrEqual : Rat → OperatorRating
deriving DecidableEq

/-- `SearchByRating` input struct from `comment.rs` (`rating: f64`
modelled as `Rat`). -/
structure SearchByRating where
  operator : String
  rating : Rat
deriving DecidableEq

/-- Outcome of a repository call: a value, an error returned to the
caller, or a thread panic (a Rust `.unwrap()` on a failed parse/fetch —
not an error return). -/
inductive Outcome (α : Type) where
  | ok : α → Outcome α
  | err : String → Outcome α
  | panicked : Outcome α
deriving DecidableEq

/-- Rust `HashMap::insert`: replaces any previous binding of the key
(at most one binding per key is ever live). -/
def hmInsert : List (String × α) → String → α → List (String × α)
  | [], k, v => [(k, v)]
  | p :: t, k, v => if p.1 = k then (k, v) :: t else p :: hmInsert t k v

/-- Lookup in the association-list model of a `HashMap` (first binding
wins; `hmInsert` keeps at most one binding per key). -/
def hmGet : List (String × α) → String → Option α
  | [], _ => none
  | p :: t, k => if p.1 = k then some p.2 else hmGet t k

/-- `bson::oid::ObjectId::parse_str` succeeds exactly on 24-character
hexadecimal strings. -/
def isHexDigitChar (c : Char) : Bool :=
  c.isDigit || (('a' ≤ c && c ≤ 'f') || ('A' ≤ c && c ≤ 'F'))

/-- Whether a string is a well-formed ObjectId (the identifier codec). -/
def validOid (s : String) : Bool :=
  s.length = 24 && s.data.all isHexDigitChar

/-- The document store: one association list per collection, keyed by the
stringified ObjectId. -/
structure Db where
  books : List (String × Book)
  users : List (String × User)
  comments : List Comment
  genres : List (String × Genre)
deriving DecidableEq

/-- `collection.find_one({_id: oid})`. -/
def findOne (l : List (String × α)) (id : String) : Option α :=
  (l.find? (fun p => p.1 = id)).map (fun p => p.2)

/-- `collection.update_one({_id: oid}, {$set: <full document>})`:
replaces the stored document wholesale (`_id` keys are unique, so the
map touches at most one live entry). -/
def storeReplace (l : List (String × α)) (id : String) (v : α) : List (String × α) :=
  l.map (fun p => if p.1 = id then (p.1, v) else p)

/-- Serde/BSON projection of a stored `Book` document onto its fields;
note `year` is stored as an int32, not a string. -/
def Book.fieldVal (b : Book) : String → Option BVal
  | "title" => some (BVal.s b.title)
  | "author" => some (BVal.s b.author)
  | "year" => some (BVal.i b.year)
  | "resume" => some (BVal.s b.resume)
  | "availability" => some (BVal.b b.availability)
  | "gender_id" => some (BVal.s b.gender_id)
  | _ => none

/-- Serde/BSON projection of a stored `User` document onto its scalar
fields (`borrowed_books` is an array, which no filter built by the
routes ever queries, so it is not projected to a scalar). -/
def User.fieldVal (u : User) : String → Option BVal
  | "first_name" => some (BVal.s u.first_name)
  | "last_name" => some (BVal.s u.last_name)
  | "email" => some (BVal.s u.email)
  | "birth_date" => some (BVal.s u.birth_date)
  | "role" => some (BVal.s u.role)
  | _ => none

/-- A MongoDB equality filter document matches a stored document iff
every filter field is equal (same BSON type and value) to the stored
field. -/
def matchesBookFilter (b : Book) (filter : List (String × BVal)) : Bool :=
  filter.all (fun kv => b.fieldVal kv.1 = some kv.2)

/-- Same for user documents. -/
def matchesUserFilter (u : User) (filter : List (String × BVal)) : Bool :=
  filter.all (fun kv => u.fieldVal kv.1 = some kv.2)

/-- `Mongo::get_book_by_id` (`mongo.rs` 140–145): both the id parse and
the `find_one` result are `.unwrap()`ed, so a malformed id or a missing
document panics instead of returning an error. -/
def Mongo.get_book_by_id (db : Db) (id : String) : Outcome Book :=
  if validOid id then
    match findOne db.books id with
    | some b => Outcome.ok b
    | none => Outcome.panicked
  else Outcome.panicked

/-- `Mongo::delete_book` (`mongo.rs` 200–206): fetch (unwrap), then
delete; returns the prior document. -/
def Mongo.delete_book (db : Db) (id : String) : Db × Outcome Book :=
  if validOid id then
    match findOne db.books id with
    | some b =>
        ({ db with books := db.books.filter (fun p => p.1 ≠ id) }, Outcome.ok b)
    | none => (db, Outcome.panicked)
  else (db, Outcome.panicked)

/-- `Mongo::borrow_book` (`mongo.rs` 242–266): load book then user (ids
`.unwrap()`ed, missing documents `.unwrap()`ed); reject when the book is
not available before any write; otherwise flip availability, push the
book id onto the borrowed list of the user, and `$set` both full documents. -/
def Mongo.borrow_book (db : Db) (id : String) (user_id : String) :
    Db × Outcome (User × Book) :=
  if validOid id then
    match findOne db.books id with
    | none => (db, Outcome.panicked)
    | some book =>
      if validOid user_id then
        match findOne db.users user_id with
        | none => (db, Outcome.panicked)
        | some user =>
          if book.availability = false then
            (db, Outcome.err "Book not available")
          else
            ({ db with
                books := storeReplace db.books id { book with availability := false },
                users := storeReplace db.users user_id
                  { user with borrowed_books := user.borrowed_books ++ [id] } },
             Outcome.ok ({ user with borrowed_books := user.borrowed_books ++ [id] },
                         { book with availability := false }))
      else (db, Outcome.panicked)
  else (db, Outcome.panicked)

/-- `Mongo::return_book` (`mongo.rs` 278–301): symmetric to borrow;
`retain(|x| x != id)` drops every occurrence of the book id. -/
def Mongo.return_book (db : Db) (id : String) (user_id : String) :
    Db × Outcome (User × Book) :=
  if validOid id then
    match findOne db.books id with
    | none => (db, Outcome.panicked)
    | some book =>
      if validOid user_id then
        match findOne db.users user_id with
        | none => (db, Outcome.panicked)
        | some user =>
          if book.availability = true then
            (db, Outcome.err "Book not borrowed")
          else
            ({ db with
                books := storeReplace db.books id { book with availability := true },
                users := storeReplace db.users user_id
                  { user with borrowed_books := user.borrowed_books.filter (fun x => x ≠ id) } },
             Outcome.ok ({ user with borrowed_books := user.borrowed_books.filter (fun x => x ≠ id) },
                         { book with availability := true }))
      else (db, Outcome.panicked)
  else (db, Outcome.panicked)

/-- `Mongo::search_book` (`mongo.rs` 217–230): the `HashMap<&str, String>`
becomes an all-string equality filter document; `find` with it returns
every book document it matches (an empty map matches everything). -/
def Mongo.search_book (db : Db) (search : List (String × String)) : List Book :=
  ((db.books.map (fun p => p.2)).filter
    (fun b => matchesBookFilter b (search.map (fun kv => (kv.1, BVal.s kv.2)))))

/-- `Mongo::search_user` (`mongo.rs` 363–376): same shape over users. -/
def Mongo.search_user (db : Db) (search : List (String × String)) : List User :=
  ((db.users.map (fun p => p.2)).filter
    (fun u => matchesUserFilter u (search.map (fun kv => (kv.1, BVal.s kv.2)))))

/-- Applying one `$set` entry of a book partial update to a stored book
document.  The `update_book` route only ever emits the six known keys
with correctly-tagged values, so the fall-through is unreachable from
the routes. -/
def setBookField (b : Book) (kv : String × Value) : Book :=
  match kv with
  | ("title", Value.Text t) => { b with title := t }
  | ("author", Value.Text t) => { b with author := t }
  | ("year", Value.Int y) => { b with year := y }
  | ("resume", Value.Text t) => { b with resume := t }
  | ("availability", Value.Bool v) => { b with availability := v }
  | ("gender_id", Value.Text t) => { b with gender_id := t }
  | _ => b

/-- `$set` of a partial book mapping onto the document with the given id. -/
def storeSetBook (l : List (String × Book)) (id : String) (m : List (String × Value)) :
    List (String × Book) :=
  l.map (fun p => if p.1 = id then (p.1, m.foldl setBookField p.2) else p)

/-- Applying one `$set` entry of a user partial update.  `update_user`
emits only string values; a string stored under `borrowed_books` (an
array field) would make the typed decoder fail — no claim below applies
such a mapping, so the fall-through leaves the document unchanged. -/
def setUserField (u : User) (kv : String × String) : User :=
  match kv.1 with
  | "first_name" => { u with first_name := kv.2 }
  | "last_name" => { u with last_name := kv.2 }
  | "email" => { u with email := kv.2 }
  | "birth_date" => { u with birth_date := kv.2 }
  | "role" => { u with role := kv.2 }
  | _ => u

/-- `$set` of a partial user mapping onto the document with the given id. -/
def storeSetUser (l : List (String × User)) (id : String) (m : List (String × String)) :
    List (String × User) :=
  l.map (fun p => if p.1 = id then (p.1, m.foldl setUserField p.2) else p)

/-- `Mongo::update_book` (`mongo.rs` 176–190): parse id (`.unwrap()`),
`$set` the mapping, re-fetch (`.unwrap()` — missing id panics). -/
def Mongo.update_book (db : Db) (id : String) (book : List (String × Value)) :
    Db × Outcome Book :=
  if validOid id then
    let db2 : Db := { db with books := storeSetBook db.books id book }
    match findOne db2.books id with
    | some b => (db2, Outcome.ok b)
    | none => (db2, Outcome.panicked)
  else (db, Outcome.panicked)

/-- `Mongo::update_user` (`mongo.rs` 388–398): same shape over users;
issues the `$set` even when the mapping is empty. -/
def Mongo.update_user (db : Db) (id : String) (user : List (String × String)) :
    Db × Outcome User :=
  if validOid id then
    let db2 : Db := { db with users := storeSetUser db.users id user }
    match findOne db2.users id with
    | some u => (db2, Outcome.ok u)
    | none => (db2, Outcome.panicked)
  else (db, Outcome.panicked)

/-- The `match &input.field { Some(v) => map.insert(key, v), None => () }`
idiom the routes repeat for every optional field: insert exactly when
the field is present. -/
def optInsert (m : List (String × α)) (k : String) (o : Option α) :
    List (String × α) :=
  match o with
  | some v => hmInsert m k v
  | none => m

/-- The `if user.borrowed_books.is_some { for book in ... { insert } }`
idiom of the `update_user` route: one `insert` per list element, all
under the single key `"borrowed_books"`, each overwriting the last. -/
def bbInsert (m : List (String × String)) (o : Option (List String)) :
    List (String × String) :=
  match o with
  | some books => books.foldl (fun acc book => hmInsert acc "borrowed_books" book) m
  | none => m

/-- The partial-update mapping built by the `update_book` route
(`book.rs` 77–110), inserting the present fields in source order.
`none` is the all-fields-absent short-circuit: no mapping is handed to
the store at all. -/
def update_book_map (book : UpdateBook) : Option (List (String × Value)) :=
  if book.title = none ∧ book.author = none ∧ book.year = none ∧
      book.gender_id = none ∧ book.resume = none ∧ book.availability = none then
    none
  else
    some (optInsert (optInsert (optInsert (optInsert (optInsert (optInsert []
      "title" (book.title.map Value.Text))
      "author" (book.author.map Value.Text))
      "year" (book.year.map Value.Int))
      "resume" (book.resume.map Value.Text))
      "gender_id" (book.gender_id.map Value.Text))
      "availability" (book.availability.map Value.Bool))

/-- The `update_book` route (`book.rs` 77–110): short-circuit to a fresh
fetch when every field is absent, otherwise hand the mapping to the
store. -/
def update_book_route (db : Db) (id : String) (book : UpdateBook) : Db × Outcome Book :=
  match update_book_map book with
  | none => (db, Mongo.get_book_by_id db id)
  | some m => Mongo.update_book db id m

/-- The partial-update mapping built by the `update_user` route
(`user.rs` 99–131).  There is no all-absent short-circuit; the
`borrowed_books` list is inserted one element at a time under the single
key `"borrowed_books"`, each insertion overwriting the previous one. -/
def update_user_map (user : UpdateUser) : List (String × String) :=
  optInsert (bbInsert (optInsert (optInsert (optInsert (optInsert []
    "first_name" user.first_name)
    "last_name" user.last_name)
    "email" user.email)
    "birth_date" user.birth_date)
    user.borrowed_books)
    "role" user.role

/-- The `update_user` route (`user.rs` 99–131): always issues the store
update with whatever mapping was built (possibly empty). -/
def update_user_route (db : Db) (id : String) (user : UpdateUser) : Db × Outcome User :=
  Mongo.update_user db id (update_user_map user)

/-- The filter built by the `search_book` route (`book.rs` 120–142);
`none` means the route answered without issuing any store query.  Note
the provided year is rendered to its decimal string. -/
def search_book_map (book : SearchBook) : Option (List (String × String)) :=
  if book.title = none ∧ book.author = none ∧ book.year = none then
    none
  else
    some (optInsert (optInsert (optInsert []
      "title" book.title)
      "author" book.author)
      "year" (book.year.map (fun year => toString year)))

/-- The `search_book` route: all fields absent ⇒ empty list and no store
query; otherwise the store is queried with the built filter.  The first
component is the filter handed to the store (`none` = no store call). -/
def search_book_route (db : Db) (book : SearchBook) :
    Option (List (String × String)) × List Book :=
  match search_book_map book with
  | none => (none, [])
  | some m => (some m, Mongo.search_book db m)

/-- The filter built by the `search_user` route (`user.rs` 76–97);
`none` means the route failed before querying the store. -/
def search_user_map (user : SearchUser) : Option (List (String × String)) :=
  if user.first_name = none ∧ user.last_name = none ∧ user.email = none then
    none
  else
    some (optInsert (optInsert (optInsert []
      "first_name" user.first_name)
      "last_name" user.last_name)
      "email" user.email)

/-- The `search_user` route: all fields absent ⇒ error "No search
criteria provided" with no store query; otherwise query the store. -/
def search_user_route (db : Db) (user : SearchUser) :
    Option (List (String × String)) × Outcome (List User) :=
  match search_user_map user with
  | none => (none, Outcome.err "No search criteria provided")
  | some m => (some m, Outcome.ok (Mongo.search_user db m))

/-- `$lookup` stage of the rating pipeline: the comments whose `book_id`
equals `$toString` of the `_id` of the book (the association-list key). -/
def lookupComments (db : Db) (id : String) : List Comment :=
  db.comments.filter (fun c => c.book_id = id)

/-- `$unwind` (preserving empty) + `$group`/`$avg`: a book with no
comments gets a `null` average (`none`), otherwise the arithmetic mean
of its comment ratings. -/
def groupAvg (cs : List Comment) : Option Rat :=
  if cs = [] then none
  else some ((cs.map (fun c => (c.rating : Rat))).sum / (cs.length : Rat))

/-- Numeric comparison of the `$match` stage for a non-null average. -/
def opCompare (op : OperatorRating) (a : Rat) : Bool :=
  match op with
  | OperatorRating.Equal v => a = v
  | OperatorRating.NotEqual v => a ≠ v
  | OperatorRating.Greater v => v < a
  | OperatorRating.GreaterOrEqual v => v ≤ a
  | OperatorRating.Less v => a < v
  | OperatorRating.LessOrEqual v => a ≤ v

/-- `$match {average_rating: <op>}` under MongoDB null semantics: a
`null` average satisfies only `$ne` (null is not equal to any number);
`$eq` and the range operators never match `null`. -/
def opSatisfied (op : OperatorRating) (avg : Option Rat) : Bool :=
  match avg with
  | some a => opCompare op a
  | none =>
    match op with
    | OperatorRating.NotEqual _ => true
    | _ => false

/-- `Mongo::get_all_books_by_operator_rating` (`mongo.rs` 523–595): the
aggregation pipeline joins each book with its comments, averages the
ratings, keeps the books whose average satisfies the operator, and
decodes the projected documents back into `Book` (the injected
`average_rating` field is dropped by the typed decoder). -/
def Mongo.get_all_books_by_operator_rating (db : Db) (op : OperatorRating) : List Book :=
  ((db.books.filter
      (fun p => opSatisfied op (groupAvg (lookupComments db p.1)))).map
    (fun p => p.2))

/-- Operator-string dispatch of the `get_all_books_by_search_rating`
route (`comment.rs` 81–96): the wildcard arm maps any unknown operator
to `Equal`. -/
def parseOperatorRating (operator : String) (value : Rat) : OperatorRating :=
  if operator = "=" then OperatorRating.Equal value
  else if operator = "!=" then OperatorRating.NotEqual value
  else if operator = ">" then OperatorRating.Greater value
  else if operator = ">=" then OperatorRating.GreaterOrEqual value
  else if operator = "<" then OperatorRating.Less value
  else if operator = "<=" then OperatorRating.LessOrEqual value
  else OperatorRating.Equal value

/-- The `GET /api/comment/search/rating` route (`comment.rs` 81–96). -/
def get_all_books_by_search_rating (db : Db) (s : SearchByRating) : List Book :=
  Mongo.get_all_books_by_operator_rating db (parseOperatorRating s.operator s.rating)

/-- `Mongo::get_books_by_genre` (`mongo.rs` 652–704): `$match` the genre
by exact name over the genres collection, `$lookup` the books whose
`gender_id` equals the stringified `_id` of the genre, project `gender_id`
to the genre name, `$unwind` + `$replaceRoot` flatten the result. -/
def Mongo.get_books_by_genre (db : Db) (genre_name : String) : List Book :=
  (db.genres.filter (fun p => p.2.name = genre_name)).flatMap
    (fun gp =>
      ((db.books.filter (fun bp => bp.2.gender_id = gp.1)).map
        (fun bp => { bp.2 with gender_id := gp.2.name })))

/-- The optional fields declared on `UpdateBook` (`book.rs` 29–36). -/
def bookUpdateFields : List String :=
  ["title", "author", "year", "resume", "availability", "gender_id"]

/-- The optional fields declared on `UpdateUser` (`user.rs` 36–43). -/
def userUpdateFields : List String :=
  ["first_name", "last_name", "email", "birth_date", "borrowed_books", "role"]

/-- Spec-side selection predicate, written from the words of the rating
claim: a book is selected when the arithmetic mean of the ratings of the
comments whose book_id equals the stringified id of the book satisfies
the operator; with no such comments the average is null, which only a
not-equal match accepts. -/
def ratingSpecSelects (db : Db) (op : OperatorRating) (p : String × Book) : Bool :=
  let ratings := (db.comments.filter (fun c => c.book_id = p.1)).map
    (fun c => (c.rating : Rat))
  if ratings = [] then
    match op with
    | OperatorRating.NotEqual _ => true
    | _ => false
  else opCompare op (ratings.sum / (ratings.length : Rat))

/-! ## Concrete instances used by witnesses and counterexamples -/

/-- A well-formed ObjectId string for a book. -/
def oidA : String := "aaaaaaaaaaaaaaaaaaaaaaaa"

/-- A well-formed ObjectId string for a user. -/
def oidU : String := "bbbbbbbbbbbbbbbbbbbbbbbb"

/-- An available book. -/
def b1 : Book := ⟨"Dune", "Herbert", 1965, "sand", true, "000000000000000000000000"⟩

/-- A user with an empty borrowed list. -/
def u1 : User := ⟨"Ada", "L", "ada@x", "1990-01-01", [], "user"⟩

/-- Store holding `b1` and `u1`. -/
def db1 : Db := ⟨[(oidA, b1)], [(oidU, u1)], [], []⟩

/-- An unavailable (borrowed) book. -/
def b2 : Book := ⟨"Dune", "Herbert", 1965, "sand", false, "000000000000000000000000"⟩

/-- A user currently holding `b2` twice (no duplicate-borrow guard exists). -/
def u2 : User := ⟨"Ada", "L", "ada@x", "1990-01-01",
  [oidA, "cccccccccccccccccccccccc", oidA], "user"⟩

/-- Store holding `b2` and `u2`. -/
def db2 : Db := ⟨[(oidA, b2)], [(oidU, u2)], [], []⟩

/-- A partial book-update input with three fields present. -/
def ub3 : UpdateBook := ⟨some "NewT", none, some 1999, none, some false, none⟩

/-- The mapping `update_book_map` builds from `ub3`. -/
def m3 : List (String × Value) :=
  [("title", Value.Text "NewT"), ("year", Value.Int 1999), ("availability", Value.Bool false)]

/-- A partial user-update input with a two-element borrowed list. -/
def uu3 : UpdateUser := ⟨none, some "Lovelace", none, none, some ["b1", "b2"], some "admin"⟩

/-- A user store for the no-op-update witness. -/
def u5 : User := ⟨"Ada", "L", "ada@x", "1990-01-01", [], "user"⟩

/-- Store holding only `u5`. -/
def db5 : Db := ⟨[], [("dddddddddddddddddddddddd", u5)], [], []⟩

/-- A book stored with integer year 2020. -/
def bookY : Book := ⟨"T", "A", 2020, "r", true, "000000000000000000000000"⟩

/-- Store holding only `bookY`. -/
def db6 : Db := ⟨[("cccccccccccccccccccccccc", bookY)], [], [], []⟩

/-- A book reviewed in the rating examples. -/
def bC7 : Book := ⟨"B", "A", 2000, "r", true, "000000000000000000000000"⟩

/-- Its ObjectId string. -/
def idC7 : String := "eeeeeeeeeeeeeeeeeeeeeeee"

/-- Store where `bC7` has comments rated 2, 4 and 6. -/
def dbC7 : Db := ⟨[(idC7, bC7)], [],
  [⟨"u1", idC7, "ok", 2⟩, ⟨"u2", idC7, "good", 4⟩, ⟨"u3", idC7, "great", 6⟩], []⟩

/-- Store where `bC7` has no comments at all. -/
def dbC7n : Db := ⟨[(idC7, bC7)], [], [], []⟩

/-- A genre document. -/
def gFic : Genre := ⟨"Fiction"⟩

/-- Its ObjectId string. -/
def gidFic : String := "ffffffffffffffffffffffff"

/-- A book tagged with the `gFic` genre id. -/
def bFic : Book := ⟨"Dune", "Herbert", 1965, "sand", true, gidFic⟩

/-- A book left on the sentinel (no-genre) id. -/
def bOther : Book := ⟨"SICP", "Abelson", 1985, "wizard", true, "000000000000000000000000"⟩

/-- Store with one genre and two books, one of them tagged with it. -/
def db8 : Db := ⟨[("aaaaaaaaaaaaaaaaaaaaaaa1", bFic), ("aaaaaaaaaaaaaaaaaaaaaaa2", bOther)],
  [], [], [(gidFic, gFic)]⟩

/-- A string `ObjectId::parse_str` rejects. -/
def badId : String := "not-a-valid-object-id"

/-- Store used when probing malformed ids. -/
def db9 : Db := ⟨[(oidA, b1)], [(oidU, u1)], [], []⟩

/-- An empty store. -/
def dbEmpty : Db := ⟨[], [], [], []⟩

/-! ## Lookup lemmas for the `HashMap` model -/

theorem hmGet_insert_self (m : List (String × α)) (k : String) (v : α) :
    hmGet (hmInsert m k v) k = some v := by
  induction m with
  | nil => simp [hmInsert, hmGet]
  | cons p t ih =>
    by_cases h : p.1 = k
    · simp [hmInsert, hmGet, h]
    · simpa [hmInsert, hmGet, h] using ih

theorem hmGet_insert_other (m : List (String × α)) (k k' : String) (v : α)
    (h : k ≠ k') : hmGet (hmInsert m k' v) k = hmGet m k := by
  induction m with
  | nil => simp [hmInsert, hmGet, Ne.symm h]
  | cons p t ih =>
    by_cases hp : p.1 = k'
    · have hpk : ¬ p.1 = k := fun hh => h (hh ▸ hp)
      simp [hmInsert, hmGet, hp, hpk, Ne.symm h]
    · by_cases hpk : p.1 = k
      · simp [hmInsert, hmGet, hp, hpk, h]
      · simpa [hmInsert, hmGet, hp, hpk] using ih

theorem optInsert_get_other (m : List (String × α)) (k k' : String) (o : Option α)
    (h : k ≠ k') : hmGet (optInsert m k' o) k = hmGet m k := by
  cases o with
  | none => rfl
  | some v => exact hmGet_insert_other m k k' v h

theorem optInsert_get_self (m : List (String × α)) (k : String) (o : Option α)
    (h : hmGet m k = none) : hmGet (optInsert m k o) k = o := by
  cases o with
  | none => exact h
  | some v => exact hmGet_insert_self m k v

theorem bb_foldl_get_other (l : List String) (m : List (String × String)) (k : String)
    (h : k ≠ "borrowed_books") :
    hmGet (l.foldl (fun acc book => hmInsert acc "borrowed_books" book) m) k = hmGet m k := by
  induction l generalizing m with
  | nil => rfl
  | cons b t ih =>
    rw [List.foldl_cons, ih, hmGet_insert_other _ _ _ _ h]

theorem bb_foldl_get_self (l : List String) (m : List (String × String)) :
    hmGet (l.foldl (fun acc book => hmInsert acc "borrowed_books" book) m) "borrowed_books" =
      l.getLast?.or (hmGet m "borrowed_books") := by
  induction l generalizing m with
  | nil => simp
  | cons b t ih =>
    rw [List.foldl_cons, ih, hmGet_insert_self]
    cases t with
    | nil => simp
    | cons c t2 =>
      obtain ⟨x, hx⟩ := Option.isSome_iff_exists.mp
        (List.getLast?_isSome.mpr (List.cons_ne_nil c t2))
      rw [List.getLast?_cons_cons, hx]
      rfl

theorem bbInsert_get_other (m : List (String × String)) (o : Option (List String))
    (k : String) (h : k ≠ "borrowed_books") :
    hmGet (bbInsert m o) k = hmGet m k := by
  cases o with
  | none => rfl
  | some l => exact bb_foldl_get_other l m k h

theorem bbInsert_get_self (m : List (String × String)) (o : Option (List String))
    (h : hmGet m "borrowed_books" = none) :
    hmGet (bbInsert m o) "borrowed_books" = o.bind List.getLast? := by
  cases o with
  | none => exact h
  | some l =>
    rw [bbInsert, bb_foldl_get_self, h, Option.or_none]
    rfl

/-- Applying an empty `$set` mapping leaves every user document as it was. -/
theorem storeSetUser_nil (l : List (String × User)) (id : String) :
    storeSetUser l id [] = l := by
  simp [storeSetUser]

/-- The match-stage predicate of the aggregation pipeline agrees with the
spec-side predicate written from the words of the claim. -/
theorem opSatisfied_groupAvg (db : Db) (op : OperatorRating) (p : String × Book) :
    opSatisfied op (groupAvg (lookupComments db p.1)) = ratingSpecSelects db op p := by
  unfold opSatisfied groupAvg ratingSpecSelects lookupComments
  by_cases h : db.comments.filter (fun c => c.book_id = p.1) = []
  · simp [h]
  · simp [h]

/-! ## Claim theorems -/

/-- Claim C1: for a book and user resolved by `borrow_book`, if the book
is available the operation flips availability to false, appends the book
id to the end of the borrowed list exactly once, persists both documents
and returns the updated pair; if the book is unavailable it fails with
the error "Book not available" and writes neither document. -/
theorem borrow_book_spec (db : Db) (id uid : String) (book : Book) (user : User)
    (hv : validOid id = true) (hvu : validOid uid = true)
    (hb : findOne db.books id = some book) (hu : findOne db.users uid = some user) :
    (book.availability = true →
      Mongo.borrow_book db id uid =
        ({ db with
            books := storeReplace db.books id { book with availability := false },
            users := storeReplace db.users uid
              { user with borrowed_books := user.borrowed_books ++ [id] } },
         Outcome.ok ({ user with borrowed_books := user.borrowed_books ++ [id] },
                     { book with availability := false })) ∧
      ({ user with borrowed_books := user.borrowed_books ++ [id] }).borrowed_books.count id =
        user.borrowed_books.count id + 1) ∧
    (book.availability = false →
      Mongo.borrow_book db id uid = (db, Outcome.err "Book not available")) := by
  constructor
  · intro ha
    constructor
    · simp [Mongo.borrow_book, hv, hvu, hb, hu, ha]
    · simp
  · intro ha
    simp [Mongo.borrow_book, hv, hvu, hb, hu, ha]

/-- Witness: borrowing the available `b1` in `db1`. -/
theorem borrow_book_spec_witness :
    Mongo.borrow_book db1 oidA oidU =
      ({ db1 with
          books := storeReplace db1.books oidA { b1 with availability := false },
          users := storeReplace db1.users oidU
            { u1 with borrowed_books := u1.borrowed_books ++ [oidA] } },
       Outcome.ok ({ u1 with borrowed_books := u1.borrowed_books ++ [oidA] },
                   { b1 with availability := false })) ∧
    ({ u1 with borrowed_books := u1.borrowed_books ++ [oidA] }).borrowed_books.count oidA =
      u1.borrowed_books.count oidA + 1 :=
  (borrow_book_spec db1 oidA oidU b1 u1 (by decide) (by decide) (by decide) (by decide)).1 rfl

/-- Claim C2: for a book and user resolved by `return_book`, if the book
is unavailable the operation flips availability to true, removes every
occurrence of the book id from the borrowed list, persists both
documents and returns the updated pair; if the book is already available
it fails with the error "Book not borrowed" and writes neither document. -/
theorem return_book_spec (db : Db) (id uid : String) (book : Book) (user : User)
    (hv : validOid id = true) (hvu : validOid uid = true)
    (hb : findOne db.books id = some book) (hu : findOne db.users uid = some user) :
    (book.availability = false →
      Mongo.return_book db id uid =
        ({ db with
            books := storeReplace db.books id { book with availability := true },
            users := storeReplace db.users uid
              { user with borrowed_books := user.borrowed_books.filter (fun x => x ≠ id) } },
         Outcome.ok ({ user with borrowed_books := user.borrowed_books.filter (fun x => x ≠ id) },
                     { book with availability := true })) ∧
      id ∉ ({ user with
        borrowed_books := user.borrowed_books.filter (fun x => x ≠ id) }).borrowed_books) ∧
    (book.availability = true →
      Mongo.return_book db id uid = (db, Outcome.err "Book not borrowed")) := by
  constructor
  · intro ha
    constructor
    · simp [Mongo.return_book, hv, hvu, hb, hu, ha]
    · simp
  · intro ha
    simp [Mongo.return_book, hv, hvu, hb, hu, ha]

/-- Witness: returning the borrowed `b2` in `db2` drops both copies of
its id from the borrowed list of `u2`. -/
theorem return_book_spec_witness :
    Mongo.return_book db2 oidA oidU =
      ({ db2 with
          books := storeReplace db2.books oidA { b2 with availability := true },
          users := storeReplace db2.users oidU
            { u2 with borrowed_books := u2.borrowed_books.filter (fun x => x ≠ oidA) } },
       Outcome.ok ({ u2 with borrowed_books := u2.borrowed_books.filter (fun x => x ≠ oidA) },
                   { b2 with availability := true })) ∧
    oidA ∉ ({ u2 with
      borrowed_books := u2.borrowed_books.filter (fun x => x ≠ oidA) }).borrowed_books :=
  (return_book_spec db2 oidA oidU b2 u2 (by decide) (by decide) (by decide) (by decide)).1 rfl

/-- Claim C3 (amended): whenever `update_book_map` hands a mapping to the
store, its keys are drawn from the declared optional book fields and
each field appears with its provided tagged value exactly when it was
present; for users the keys are drawn from the declared optional user
fields and each scalar field appears with its provided value exactly
when present, but the `borrowed_books` key is bound to the LAST element
of the provided list (each element overwrites the previous one), hence
it is absent whenever the provided list is empty. -/
theorem update_map_fields_spec (ub : UpdateBook) (uu : UpdateUser)
    (m : List (String × Value)) (hm : update_book_map ub = some m) :
    ((∀ k, k ∉ bookUpdateFields → hmGet m k = none) ∧
     hmGet m "title" = ub.title.map Value.Text ∧
     hmGet m "author" = ub.author.map Value.Text ∧
     hmGet m "year" = ub.year.map Value.Int ∧
     hmGet m "resume" = ub.resume.map Value.Text ∧
     hmGet m "availability" = ub.availability.map Value.Bool ∧
     hmGet m "gender_id" = ub.gender_id.map Value.Text) ∧
    ((∀ k, k ∉ userUpdateFields → hmGet (update_user_map uu) k = none) ∧
     hmGet (update_user_map uu) "first_name" = uu.first_name ∧
     hmGet (update_user_map uu) "last_name" = uu.last_name ∧
     hmGet (update_user_map uu) "email" = uu.email ∧
     hmGet (update_user_map uu) "birth_date" = uu.birth_date ∧
     hmGet (update_user_map uu) "borrowed_books" = uu.borrowed_books.bind List.getLast? ∧
     hmGet (update_user_map uu) "role" = uu.role) := by
  have hmeq : m = optInsert (optInsert (optInsert (optInsert (optInsert (optInsert []
      "title" (ub.title.map Value.Text))
      "author" (ub.author.map Value.Text))
      "year" (ub.year.map Value.Int))
      "resume" (ub.resume.map Value.Text))
      "gender_id" (ub.gender_id.map Value.Text))
      "availability" (ub.availability.map Value.Bool) := by
    unfold update_book_map at hm
    split at hm
    · exact absurd hm (by simp)
    · exact (Option.some.inj hm).symm
  subst hmeq
  refine ⟨⟨?_, ?_, ?_, ?_, ?_, ?_, ?_⟩, ⟨?_, ?_, ?_, ?_, ?_, ?_, ?_⟩⟩
  · intro k hk
    simp only [bookUpdateFields, List.mem_cons, List.not_mem_nil, or_false] at hk
    push_neg at hk
    obtain ⟨h1, h2, h3, h4, h5, h6⟩ := hk
    rw [optInsert_get_other _ _ _ _ h5, optInsert_get_other _ _ _ _ h6,
      optInsert_get_other _ _ _ _ h4, optInsert_get_other _ _ _ _ h3,
      optInsert_get_other _ _ _ _ h2, optInsert_get_other _ _ _ _ h1]
    rfl
  · simp [optInsert_get_other, optInsert_get_self, hmGet]
  · simp [optInsert_get_other, optInsert_get_self, hmGet]
  · simp [optInsert_get_other, optInsert_get_self, hmGet]
  · simp [optInsert_get_other, optInsert_get_self, hmGet]
  · simp [optInsert_get_other, optInsert_get_self, hmGet]
  · simp [optInsert_get_other, optInsert_get_self, hmGet]
  · intro k hk
    simp only [userUpdateFields, List.mem_cons, List.not_mem_nil, or_false] at hk
    push_neg at hk
    obtain ⟨h1, h2, h3, h4, h5, h6⟩ := hk
    unfold update_user_map
    rw [optInsert_get_other _ _ _ _ h6, bbInsert_get_other _ _ _ h5,
      optInsert_get_other _ _ _ _ h4, optInsert_get_other _ _ _ _ h3,
      optInsert_get_other _ _ _ _ h2, optInsert_get_other _ _ _ _ h1]
    rfl
  · simp [update_user_map, optInsert_get_other, optInsert_get_self,
      bbInsert_get_other, bbInsert_get_self, hmGet]
  · simp [update_user_map, optInsert_get_other, optInsert_get_self,
      bbInsert_get_other, bbInsert_get_self, hmGet]
  · simp [update_user_map, optInsert_get_other, optInsert_get_self,
      bbInsert_get_other, bbInsert_get_self, hmGet]
  · simp [update_user_map, optInsert_get_other, optInsert_get_self,
      bbInsert_get_other, bbInsert_get_self, hmGet]
  · simp [update_user_map, optInsert_get_other, optInsert_get_self,
      bbInsert_get_other, bbInsert_get_self, hmGet]
  · simp [update_user_map, optInsert_get_other, optInsert_get_self,
      bbInsert_get_other, bbInsert_get_self, hmGet]

/-- Witness: a three-field book update and a user update carrying a
two-element borrowed list. -/
theorem update_map_fields_spec_witness :
    update_book_map ub3 = some m3 ∧
    (hmGet m3 "title" = ub3.title.map Value.Text ∧
     hmGet m3 "author" = ub3.author.map Value.Text ∧
     hmGet (update_user_map uu3) "borrowed_books" = uu3.borrowed_books.bind List.getLast? ∧
     hmGet (update_user_map uu3) "role" = uu3.role) :=
  ⟨by decide,
   (update_map_fields_spec ub3 uu3 m3 (by decide)).1.2.1,
   (update_map_fields_spec ub3 uu3 m3 (by decide)).1.2.2.1,
   (update_map_fields_spec ub3 uu3 m3 (by decide)).2.2.2.2.2.2.1,
   (update_map_fields_spec ub3 uu3 m3 (by decide)).2.2.2.2.2.2.2⟩

/-- Counterexample to claim C3 as stated: a user update whose
`borrowed_books` field is present with the empty list hands the store a
mapping with NO `borrowed_books` key at all, and a present two-element
list is mapped to its last element rather than to the provided list. -/
theorem update_map_borrowed_books_counterexample :
    ((⟨none, none, none, none, some [], none⟩ : UpdateUser).borrowed_books ≠ none ∧
      update_user_map ⟨none, none, none, none, some [], none⟩ = [] ∧
      hmGet (update_user_map ⟨none, none, none, none, some [], none⟩) "borrowed_books" = none) ∧
    ((⟨none, none, none, none, some ["b1", "b2"], none⟩ : UpdateUser).borrowed_books =
        some ["b1", "b2"] ∧
      hmGet (update_user_map ⟨none, none, none, none, some ["b1", "b2"], none⟩)
        "borrowed_books" = some "b2") := by
  decide

/-- Claim C4: with every search field absent, the book-search route
answers the empty list without building any store query, while the
user-search route fails with "No search criteria provided" without
building any store query. -/
theorem search_no_criteria_spec (db : Db) :
    search_book_map ⟨none, none, none⟩ = none ∧
    search_book_route db ⟨none, none, none⟩ = (none, []) ∧
    search_user_map ⟨none, none, none⟩ = none ∧
    search_user_route db ⟨none, none, none⟩ = (none, Outcome.err "No search criteria provided") :=
  ⟨rfl, rfl, rfl, rfl⟩

/-- Claim C5: an all-absent book update issues no store update and
returns the freshly fetched book, while an all-absent user update issues
a store update with the empty mapping, which leaves every stored field
unchanged, and returns the fetched user. -/
theorem update_noop_policy_spec (db : Db) (id : String) (u : User)
    (hv : validOid id = true) (hu : findOne db.users id = some u) :
    update_book_map ⟨none, none, none, none, none, none⟩ = none ∧
    update_book_route db id ⟨none, none, none, none, none, none⟩ =
      (db, Mongo.get_book_by_id db id) ∧
    update_user_map ⟨none, none, none, none, none, none⟩ = [] ∧
    update_user_route db id ⟨none, none, none, none, none, none⟩ = (db, Outcome.ok u) := by
  refine ⟨rfl, rfl, rfl, ?_⟩
  show Mongo.update_user db id [] = (db, Outcome.ok u)
  simp [Mongo.update_user, hv, storeSetUser_nil, hu]

/-- Witness: all-absent updates against `db5`. -/
theorem update_noop_policy_spec_witness :
    update_book_map ⟨none, none, none, none, none, none⟩ = none ∧
    update_book_route db5 "dddddddddddddddddddddddd" ⟨none, none, none, none, none, none⟩ =
      (db5, Mongo.get_book_by_id db5 "dddddddddddddddddddddddd") ∧
    update_user_map ⟨none, none, none, none, none, none⟩ = [] ∧
    update_user_route db5 "dddddddddddddddddddddddd" ⟨none, none, none, none, none, none⟩ =
      (db5, Outcome.ok u5) :=
  update_noop_policy_spec db5 "dddddddddddddddddddddddd" u5 (by decide) (by decide)

/-- Claim C6 (the code-level defect): the search route renders a provided
numeric year to its decimal string, so the filter carries the string
"2020" while the stored document carries the int32 2020; BSON equality
across types never holds and the matching book is NOT returned. -/
theorem search_book_year_string_bug :
    bookY.year = 2020 ∧
    search_book_map ⟨none, none, some 2020⟩ = some [("year", "2020")] ∧
    search_book_route db6 ⟨none, none, some 2020⟩ = (some [("year", "2020")], []) ∧
    Mongo.search_book db6 [("year", "2020")] = [] := by
  refine ⟨rfl, by decide, by decide, by decide⟩

/-- Claim C7 (amended): the rating pipeline returns exactly the books
selected by the spec-side mean predicate, where a book with at least one
comment is selected iff the arithmetic mean of its comment ratings
satisfies the operator, and a book with no comments (null average) is
selected only under a not-equal operator; concretely, ratings 2, 4, 6
average to 4, which passes at threshold 4 under the at-least operator
and fails at threshold 5. -/
theorem rating_pipeline_spec (db : Db) (op : OperatorRating) :
    Mongo.get_all_books_by_operator_rating db op =
      (db.books.filter (fun p => ratingSpecSelects db op p)).map (fun p => p.2) ∧
    groupAvg (lookupComments dbC7 idC7) = some 4 ∧
    Mongo.get_all_books_by_operator_rating dbC7 (OperatorRating.GreaterOrEqual 4) = [bC7] ∧
    Mongo.get_all_books_by_operator_rating dbC7 (OperatorRating.GreaterOrEqual 5) = [] := by
  refine ⟨?_, ?_, ?_, ?_⟩
  · unfold Mongo.get_all_books_by_operator_rating
    rw [show (fun p => opSatisfied op (groupAvg (lookupComments db p.1))) =
      (fun p => ratingSpecSelects db op p) from funext fun p => opSatisfied_groupAvg db op p]
  · simp [groupAvg, lookupComments, dbC7, idC7]
    norm_num
  · simp [Mongo.get_all_books_by_operator_rating, opSatisfied, opCompare, groupAvg,
      lookupComments, dbC7, idC7, bC7]
    norm_num
  · simp [Mongo.get_all_books_by_operator_rating, opSatisfied, opCompare, groupAvg,
      lookupComments, dbC7, idC7, bC7]
    norm_num

/-- Counterexample to claim C7 as stated: a book with no comments has no
arithmetic mean of ratings, yet the pipeline returns it under the
not-equal operator, because its null average passes the match stage. -/
theorem rating_pipeline_null_counterexample :
    lookupComments dbC7n idC7 = [] ∧
    groupAvg (lookupComments dbC7n idC7) = none ∧
    Mongo.get_all_books_by_operator_rating dbC7n (OperatorRating.NotEqual 3) = [bC7] := by
  refine ⟨by decide, by decide, by decide⟩

/-- Claim C8: with no genre of the requested name the genre-join pipeline
yields the empty list; with exactly one such genre it yields exactly the
books whose gender_id equals the stringified genre id, each with
gender_id rewritten to the genre name. -/
theorem books_by_genre_spec (db : Db) (gname : String) :
    (db.genres.filter (fun gp => gp.2.name = gname) = [] →
      Mongo.get_books_by_genre db gname = []) ∧
    (∀ gid g, db.genres.filter (fun gp => gp.2.name = gname) = [(gid, g)] →
      Mongo.get_books_by_genre db gname =
        (db.books.filter (fun bp => bp.2.gender_id = gid)).map
          (fun bp => { bp.2 with gender_id := g.name })) := by
  constructor
  · intro h
    simp [Mongo.get_books_by_genre, h]
  · intro gid g h
    simp [Mongo.get_books_by_genre, h]

/-- Witness: querying the "Fiction" genre of `db8`. -/
theorem books_by_genre_spec_witness :
    (db8.genres.filter (fun gp => gp.2.name = "Fiction") = [(gidFic, gFic)]) ∧
    Mongo.get_books_by_genre db8 "Fiction" =
      (db8.books.filter (fun bp => bp.2.gender_id = gidFic)).map
        (fun bp => { bp.2 with gender_id := gFic.name }) :=
  ⟨by decide, (books_by_genre_spec db8 "Fiction").2 gidFic gFic (by decide)⟩

/-- Claim C9 (the code-level defect): on a malformed id string the
id-taking operations do not return an error to the caller; the
`.unwrap()` on the failed parse panics instead. -/
theorem malformed_id_unwrap_bug :
    validOid badId = false ∧
    Mongo.get_book_by_id db9 badId = Outcome.panicked ∧
    Mongo.delete_book db9 badId = (db9, Outcome.panicked) ∧
    Mongo.borrow_book db9 badId oidU = (db9, Outcome.panicked) ∧
    Mongo.return_book db9 badId oidU = (db9, Outcome.panicked) ∧
    Mongo.update_book db9 badId [] = (db9, Outcome.panicked) := by
  decide

/-- Claim C10: any operator string outside the six known ones is silently
treated as equality, so the route answers with the books whose average
rating equals the threshold. -/
theorem unknown_operator_defaults_to_equal (db : Db) (op : String) (v : Rat)
    (h : op ∉ (["=", "!=", ">", ">=", "<", "<="] : List String)) :
    parseOperatorRating op v = OperatorRating.Equal v ∧
    get_all_books_by_search_rating db ⟨op, v⟩ =
      Mongo.get_all_books_by_operator_rating db (OperatorRating.Equal v) := by
  simp only [List.mem_cons, List.mem_singleton, not_or] at h
  obtain ⟨h1, h2, h3, h4, h5, h6, -⟩ := h
  refine ⟨?_, ?_⟩
  · simp [parseOperatorRating, h1, h2, h3, h4, h5, h6]
  · simp [get_all_books_by_search_rating, parseOperatorRating, h1, h2, h3, h4, h5, h6]

/-- Witness: the unrecognised operator string "~". -/
theorem unknown_operator_defaults_to_equal_witness :
    "~" ∉ (["=", "!=", ">", ">=", "<", "<="] : List String) ∧
    (parseOperatorRating "~" 3 = OperatorRating.Equal 3 ∧
      get_all_books_by_search_rating dbEmpty ⟨"~", 3⟩ =
        Mongo.get_all_books_by_operator_rating dbEmpty (OperatorRating.Equal 3)) :=
  ⟨by decide, unknown_operator_defaults_to_equal dbEmpty "~" 3 (by decide)⟩

end Bibliotheca
